import Mathlib

/-!
Verification of the session-lifecycle and request-dispatch core of the
postgres-mcp server (`src/postgres_mcp/server.py`, `src/postgres_mcp/context.py`).

The embedding is shallow: each Python function relevant to the claims is
translated into an executable Lean definition. External collaborators
(the SQL execution layer, the explain/health/DTA analysis tools, the
hypopg status check) are modelled as explicit outcome parameters, since
the core's behavior is a pure function of those outcomes.
-/

namespace PostgresMcp

/-! ## Response shaping (server.py, `format_text_response` / `format_error_response`)

A `ResponseType` is a list of text contents; we keep only the text payloads. -/

/-- A response is the list of text payloads of the `TextContent` items. -/
abbrev Response := List String

/-- `format_text_response(text)` from server.py: wraps text in a single text content. -/
def format_text_response (text : String) : Response := [text]

/-- `format_error_response(error)` from server.py: prefixes the error marker. -/
def format_error_response (error : String) : Response :=
  format_text_response ("Error: " ++ error)

/-! ## Driver factory (server.py, `get_sql_driver`)

`DbConnPool` and the two driver classes live in the `.sql` module, outside the
visible source; for the factory's contract only their identity/shape matters. -/

/-- The shared connection pool object; `poolId` stands for its object identity. -/
structure DbConnPool where
  poolId : Nat
deriving DecidableEq

/-- SQL access modes for the server (`AccessMode` enum in server.py). -/
inductive AccessMode
  | unrestricted
  | restricted
deriving DecidableEq

/-- A driver handle: either a plain `SqlDriver` over a pool, or a
`SafeSqlDriver` wrapping a base driver with a statement timeout. -/
inductive SqlDriverHandle
  | sqlDriver (conn : DbConnPool)
  | safeSqlDriver (sql_driver : SqlDriverHandle) (timeout : Nat)
deriving DecidableEq

/-- `get_sql_driver` from server.py: builds a fresh `SqlDriver` over the shared
pool, and in `RESTRICTED` mode wraps it in a `SafeSqlDriver` with a 30 second
timeout. -/
def get_sql_driver (current_access_mode : AccessMode)
    (db_connection : DbConnPool) : SqlDriverHandle :=
  let base_driver := SqlDriverHandle.sqlDriver db_connection
  if current_access_mode = AccessMode.restricted then
    SqlDriverHandle.safeSqlDriver base_driver 30
  else
    base_driver

/-- The pool a driver handle ultimately executes against. -/
def SqlDriverHandle.pool : SqlDriverHandle → DbConnPool
  | .sqlDriver conn => conn
  | .safeSqlDriver d _ => d.pool

/-! ## Metadata cache (context.py, `get_from_context`) -/

/-- A result row; `cells` stands for the row's cell values. -/
structure Row where
  cells : List String
deriving DecidableEq

/-- `PG_METADATA_QUERIES` from context.py: the fixed recognized metadata keys
and their SQL text. -/
def PG_METADATA_QUERIES : List (String × String) :=
  [("version", "SELECT version() as version"),
   ("extensions",
    "SELECT e.extname as name, e.extversion as version, " ++
    "FROM pg_extension e where e.extname IN (result set restricted to hypopg, pg_stat_statements)")]

/-- A Python exception raised by `get_from_context` (the `ValueError` for an
unrecognized key — the spec's not-found failure kind). -/
inductive PyError
  | valueError (msg : String)
deriving DecidableEq

/-- The value cached for a key: `[row.cells for row in rows] if rows else None`,
i.e. `none` when the query returned no rows (or a falsy rows object). -/
abbrev CacheValue := Option (List (List String))

/-- The session cache (`ctx.request_context.lifespan_context`), as an
association list from metadata key to cached value. -/
abbrev LifespanContext := List (String × CacheValue)

/-- What one call to `get_from_context` produces: the returned value (or the
raised error), the cache afterwards, and how many database queries it issued. -/
structure GetOutcome where
  result : Except PyError CacheValue
  lifespan_context : LifespanContext
  queriesIssued : Nat

/-- `[row.cells for row in rows] if rows else None`: `rows` is falsy when it is
`None` or the empty list. -/
def rowsToValue : Option (List Row) → CacheValue
  | none => none
  | some [] => none
  | some rows => some (rows.map (fun r => r.cells))

/-- `get_from_context(ctx, key)` from context.py. The database is modelled by
`db`, mapping the SQL text to the outcome of `sql_driver.execute_query`:
`.error` is a raised exception, `.ok` carries the (possibly absent) rows. -/
def get_from_context (db : String → Except String (Option (List Row)))
    (lifespan_context : LifespanContext) (key : String) : GetOutcome :=
  match PG_METADATA_QUERIES.lookup key with
  | none =>
      { result := .error (.valueError ("Unknown context key: " ++ key))
        lifespan_context := lifespan_context
        queriesIssued := 0 }
  | some queryText =>
      match lifespan_context.lookup key with
      | some v =>
          { result := .ok v
            lifespan_context := lifespan_context
            queriesIssued := 0 }
      | none =>
          match db queryText with
          | .ok rows =>
              let value := rowsToValue rows
              { result := .ok value
                lifespan_context := (key, value) :: lifespan_context
                queriesIssued := 1 }
          | .error _ =>
              { result := .ok none
                lifespan_context := lifespan_context
                queriesIssued := 1 }

/-! ## Concurrent misses (context.py, `get_from_context` split at its awaits)

The miss path of `get_from_context` suspends between the synchronous cache
check and the point where the stored value becomes visible: obtaining the
driver and executing the query are both `await`ed. A requester is therefore a
two-step program: step one checks the cache and, on a miss, issues the query;
step two receives the result, stores it, and returns. Other requesters may be
scheduled between the two steps. -/

/-- Where one requester stands in `get_from_context`. -/
inductive ReqPhase
  | start
  | awaitingQuery (queryText : String)
  | doneValue (v : CacheValue)
  | doneError (e : PyError)
deriving DecidableEq

/-- Shared state: the session cache and how many database queries were issued. -/
structure ConcState where
  cache : LifespanContext
  queriesIssued : Nat
deriving DecidableEq

/-- One cooperative step of a requester running `get_from_context db _ key`.
From `start` it performs everything up to the awaits: the recognized-key check,
the cache check, and on a miss the issuing of the query. From `awaitingQuery`
it performs everything after the query returns: computing the value, storing
it, and returning (or returning `none` without storing, on query failure). -/
def stepReq (db : String → Except String (Option (List Row))) (key : String) :
    ConcState → ReqPhase → ConcState × ReqPhase
  | s, .start =>
      match PG_METADATA_QUERIES.lookup key with
      | none => (s, .doneError (.valueError ("Unknown context key: " ++ key)))
      | some queryText =>
          match s.cache.lookup key with
          | some v => (s, .doneValue v)
          | none =>
              ({ s with queriesIssued := s.queriesIssued + 1 },
               .awaitingQuery queryText)
  | s, .awaitingQuery queryText =>
      match db queryText with
      | .ok rows =>
          let value := rowsToValue rows
          ({ s with cache := (key, value) :: s.cache }, .doneValue value)
      | .error _ => (s, .doneValue none)
  | s, .doneValue v => (s, .doneValue v)
  | s, .doneError e => (s, .doneError e)

/-- Run two requesters for the same key under a schedule: `false` steps the
first requester, `true` steps the second. -/
def runSched (db : String → Except String (Option (List Row))) (key : String) :
    List Bool → ConcState → ReqPhase → ReqPhase → ConcState × ReqPhase × ReqPhase
  | [], s, a, b => (s, a, b)
  | false :: rest, s, a, b =>
      let (s2, a2) := stepReq db key s a
      runSched db key rest s2 a2 b
  | true :: rest, s, a, b =>
      let (s2, b2) := stepReq db key s b
      runSched db key rest s2 a b2

/-! ## The explain-query tool (server.py, `explain_query`)

The handler's collaborators — `check_hypopg_installation_status` and the three
`ExplainPlanTool` entry points — are external; their outcomes are supplied in
an `ExplainEnv`. Alongside the response we record which database-touching
calls the handler actually performed, so "no EXPLAIN of any kind is issued"
is a statement about that trace being empty. -/

/-- A hypothetical index specification, as the tool's argument contract
describes it. -/
structure HypotheticalIndex where
  table : String
  columns : List String
  usingMethod : Option String
deriving DecidableEq

/-- A database-touching call the `explain_query` handler can perform. -/
inductive ExplainCall
  | hypopgCheck
  | explainWithHypotheticalIndexes
  | explainAnalyze
  | explainBasic
deriving DecidableEq

/-- Outcome of one `ExplainPlanTool` call: an `ExplainPlanArtifact` (with its
`to_text()`), an `ErrorResult` (with its `to_text()`), or a raised exception. -/
inductive ExplainOutcome
  | artifact (text : String)
  | errorResult (text : String)
  | raised (msg : String)
deriving DecidableEq

/-- The external collaborators of `explain_query`: the hypopg status check
(`.error` is a raised exception, `.ok (installed, message)` its return value)
and the outcomes of the three explain paths. -/
structure ExplainEnv where
  hypopgStatus : Except String (Bool × String)
  hypoOutcome : ExplainOutcome
  analyzeOutcome : ExplainOutcome
  basicOutcome : ExplainOutcome

/-- Python truthiness of the `hypothetical_indexes` argument: truthy exactly
when it is a non-empty list (`if hypothetical_indexes:` in server.py). -/
def pythonTruthy (hyp : Option (List HypotheticalIndex)) : Bool :=
  match hyp with
  | none => false
  | some l => !l.isEmpty

/-- The tail of `explain_query` applied to a completed explain call: an
artifact is wrapped as a text response; an `ErrorResult` becomes an error
response with its text; a raised exception is re-raised, caught by the
handler's outer `except`, and becomes an error response with its message. -/
def finishExplainResult (o : ExplainOutcome) : Response :=
  match o with
  | .artifact t => format_text_response t
  | .errorResult t => format_error_response t
  | .raised msg => format_error_response msg

/-- `explain_query(sql, analyze, hypothetical_indexes)` from server.py,
returning the response together with the trace of database-touching calls
performed. Every failure is caught by the handler's outer `except`, so the
result is always a response. -/
def explain_query (env : ExplainEnv) (analyze : Bool)
    (hypothetical_indexes : Option (List HypotheticalIndex)) :
    Response × List ExplainCall :=
  if pythonTruthy hypothetical_indexes then
    if analyze then
      (format_error_response "Cannot use analyze and hypothetical indexes together", [])
    else
      match env.hypopgStatus with
      | .error e => (format_error_response e, [.hypopgCheck])
      | .ok (is_hypopg_installed, hypopg_message) =>
          if !is_hypopg_installed then
            (format_text_response hypopg_message, [.hypopgCheck])
          else
            (finishExplainResult env.hypoOutcome,
             [.hypopgCheck, .explainWithHypotheticalIndexes])
  else if analyze then
    (finishExplainResult env.analyzeOutcome, [.explainAnalyze])
  else
    (finishExplainResult env.basicOutcome, [.explainBasic])

/-! ## Dispatch boundaries of the other tools (server.py)

Each tool body is a pure function of its handler's outcome (`.error` is a
raised exception). The tool returns `Except`: `.ok response` means a response
reaches the transport layer, `.error e` means the exception escapes the tool
function uncaught. -/

/-- The `query` tool: the outcome of `sql_driver.execute_query(sql)` is
`.ok none` (no rows), `.ok (some rows)`, or a raised exception, which the
tool's `except` converts to an error response. -/
def query_tool (exec_outcome : Except String (Option (List Row))) :
    Except String Response :=
  match exec_outcome with
  | .error e => .ok (format_error_response e)
  | .ok none => .ok (format_text_response "No results")
  | .ok (some rows) => .ok (format_text_response (toString (rows.map (fun r => r.cells))))

/-- The `analyze_workload` tool: wraps its DTA result, converting a raised
exception to an error response. -/
def analyze_workload_tool (dta_outcome : Except String String) :
    Except String Response :=
  match dta_outcome with
  | .error e => .ok (format_error_response e)
  | .ok result => .ok (format_text_response result)

/-- The `analyze_queries` tool: validates the list length against
`MAX_NUM_DTA_QUERIES_LIMIT` (imported from the `.dta` module, kept as the
parameter `limit`), then wraps its DTA result as `analyze_workload` does. -/
def analyze_queries_tool (limit : Nat) (queries : List String)
    (dta_outcome : Except String String) : Except String Response :=
  if queries.length = 0 then
    .ok (format_error_response "Please provide a non-empty list of queries to analyze.")
  else if queries.length > limit then
    .ok (format_error_response
      ("Please provide a list of up to " ++ toString limit ++ " queries to analyze."))
  else
    match dta_outcome with
    | .error e => .ok (format_error_response e)
    | .ok result => .ok (format_text_response result)

/-- The `database_health` tool: calls `health_tool.health(...)` with no
`try`/`except` around it, so a raised exception escapes the tool function. -/
def database_health_tool (health_outcome : Except String String) :
    Except String Response :=
  match health_outcome with
  | .error e => .error e
  | .ok result => .ok (format_text_response result)

/-! ## Shutdown coordinator (server.py, `shutdown`) -/

/-- An observable action of `shutdown`: closing the pool, or gathering the
`n` still-pending tasks (awaiting their completion). -/
inductive ShutdownEvent
  | closePool
  | gatherTasks (n : Nat)
deriving DecidableEq

/-- `shutdown` from server.py as its trace of observable actions, given the
number of tasks other than the current one still pending: it awaits
`db_connection.close()`, then gathers the pending tasks (if any). -/
def shutdown (pendingTasks : Nat) : List ShutdownEvent :=
  [ShutdownEvent.closePool] ++
    (if pendingTasks ≠ 0 then [ShutdownEvent.gatherTasks pendingTasks] else [])

/-! ## Startup (server.py, `main`) -/

/-- What startup leaves behind: whether the pool connected, the warning
printed to stderr on connect failure, and whether the server proceeds to
serve requests (`mcp.run_stdio_async`). -/
structure StartupResult where
  poolConnected : Bool
  startupWarning : Option String
  serving : Bool
deriving DecidableEq

/-- The pool-connection phase of `main` from server.py: `pool_connect` is
awaited inside `try`; on failure the error is printed with
`obfuscate_password` applied (the redactor lives in the `.sql` module and is
passed in as `obfuscate_password`), and `main` proceeds to serve either way. -/
def mainStartup (obfuscate_password : String → String)
    (connectOutcome : Except String Unit) : StartupResult :=
  match connectOutcome with
  | .ok _ =>
      { poolConnected := true, startupWarning := none, serving := true }
  | .error e =>
      { poolConnected := false
        startupWarning :=
          some ("Warning: Could not connect to database: " ++ obfuscate_password e)
        serving := true }

/-! ## Concrete fixtures used by witnesses -/

/-- A database where every query succeeds with one row. -/
def dbOk : String → Except String (Option (List Row)) :=
  fun _ => .ok (some [{ cells := ["PostgreSQL 16.4"] }])

/-- A database where every query raises a connectivity error. -/
def dbFail : String → Except String (Option (List Row)) :=
  fun _ => .error "connection refused"

/-- An explain environment whose basic-EXPLAIN path raises. -/
def envRaisedBasic : ExplainEnv :=
  { hypopgStatus := .ok (true, "hypopg installed")
    hypoOutcome := .artifact "hypo plan"
    analyzeOutcome := .artifact "analyze plan"
    basicOutcome := .raised "boom" }

/-- An explain environment where every path succeeds. -/
def envAllOk : ExplainEnv :=
  { hypopgStatus := .ok (true, "hypopg installed")
    hypoOutcome := .artifact "hypo plan"
    analyzeOutcome := .artifact "analyze plan"
    basicOutcome := .artifact "basic plan" }

/-- A concrete hypothetical index. -/
def idx0 : HypotheticalIndex :=
  { table := "users", columns := ["email"], usingMethod := some "btree" }

/-! ## Claim theorems -/

/-- Claim C4: the driver factory returns, on every call, a
safety-validating `SafeSqlDriver` with statement timeout 30 wrapping a fresh
base `SqlDriver` when the access mode is restricted, a plain `SqlDriver`
with no wrapper when the mode is unrestricted, and in both cases the handle
executes against the given shared pool. -/
theorem c4_driver_factory (db_connection : DbConnPool) :
    get_sql_driver AccessMode.restricted db_connection =
      SqlDriverHandle.safeSqlDriver (SqlDriverHandle.sqlDriver db_connection) 30 ∧
    get_sql_driver AccessMode.unrestricted db_connection =
      SqlDriverHandle.sqlDriver db_connection ∧
    (∀ mode, (get_sql_driver mode db_connection).pool = db_connection) := by
  refine ⟨rfl, rfl, ?_⟩
  intro mode
  cases mode <;> rfl

/-- Claim C8: for every key outside the recognized metadata set,
`get_from_context` fails with the not-found kind of failure (the raised
`ValueError`), with the cache left unchanged and zero queries issued, for
every cache state and every database behavior. -/
theorem c8_unknown_key (db : String → Except String (Option (List Row)))
    (lifespan_context : LifespanContext) (key : String)
    (h : PG_METADATA_QUERIES.lookup key = none) :
    get_from_context db lifespan_context key =
      { result := .error (.valueError ("Unknown context key: " ++ key))
        lifespan_context := lifespan_context
        queriesIssued := 0 } := by
  simp [get_from_context, h]

/-- Witness for C8: `get("unknown-key")` fails with the not-found kind on a
non-empty cache and a healthy database. -/
theorem c8_unknown_key_witness :
    get_from_context dbOk [("version", some [["PostgreSQL 16.4"]])] "unknown-key" =
      { result := .error (.valueError "Unknown context key: unknown-key")
        lifespan_context := [("version", some [["PostgreSQL 16.4"]])]
        queriesIssued := 0 } :=
  c8_unknown_key dbOk [("version", some [["PostgreSQL 16.4"]])] "unknown-key" rfl

/-- Claim C5: for a recognized key already in the session cache,
`get_from_context` returns the cached value with zero queries and an
unchanged cache; consequently, after one successful fetch, a second get for
the same key issues zero additional queries and returns the same value. -/
theorem c5_cache_hit (db : String → Except String (Option (List Row)))
    (lifespan_context : LifespanContext) (key queryText : String)
    (hq : PG_METADATA_QUERIES.lookup key = some queryText) :
    (∀ v, lifespan_context.lookup key = some v →
      get_from_context db lifespan_context key =
        { result := .ok v, lifespan_context := lifespan_context, queriesIssued := 0 }) ∧
    (lifespan_context.lookup key = none → ∀ rows, db queryText = .ok rows →
      (get_from_context db
          (get_from_context db lifespan_context key).lifespan_context key).queriesIssued = 0 ∧
      (get_from_context db
          (get_from_context db lifespan_context key).lifespan_context key).result =
        (get_from_context db lifespan_context key).result) := by
  constructor
  · intro v hv
    simp [get_from_context, hq, hv]
  · intro hmiss rows hdb
    simp [get_from_context, hq, hmiss, hdb]

/-- Witness for C5: two sequential version lookups against a healthy
database — the second issues zero queries and returns the first's value. -/
theorem c5_cache_hit_witness :
    (get_from_context dbOk
        (get_from_context dbOk [] "version").lifespan_context "version").queriesIssued = 0 ∧
    (get_from_context dbOk
        (get_from_context dbOk [] "version").lifespan_context "version").result =
      (get_from_context dbOk [] "version").result :=
  (c5_cache_hit dbOk [] "version" "SELECT version() as version" rfl).2 rfl
    (some [{ cells := ["PostgreSQL 16.4"] }]) rfl

/-- Claim C6: when the database query for a cache miss on a recognized key
fails, `get_from_context` stores nothing (the cache is unchanged), returns
the neutral unknown value `none` rather than propagating the error, and a
later call retries the fetch (issues a query again). -/
theorem c6_query_failure (db : String → Except String (Option (List Row)))
    (lifespan_context : LifespanContext) (key queryText e : String)
    (hq : PG_METADATA_QUERIES.lookup key = some queryText)
    (hmiss : lifespan_context.lookup key = none)
    (hdb : db queryText = .error e) :
    get_from_context db lifespan_context key =
      { result := .ok none, lifespan_context := lifespan_context, queriesIssued := 1 } ∧
    (get_from_context db
        (get_from_context db lifespan_context key).lifespan_context key).queriesIssued = 1 := by
  constructor
  · simp [get_from_context, hq, hmiss, hdb]
  · simp [get_from_context, hq, hmiss, hdb]

/-- Witness for C6: a failed version fetch returns `none`, leaves the cache
empty, and the next call issues a query again. -/
theorem c6_query_failure_witness :
    get_from_context dbFail [] "version" =
      { result := .ok none, lifespan_context := [], queriesIssued := 1 } ∧
    (get_from_context dbFail
        (get_from_context dbFail [] "version").lifespan_context "version").queriesIssued = 1 :=
  c6_query_failure dbFail [] "version" "SELECT version() as version"
    "connection refused" rfl rfl rfl

/-- Claim C7: when real-execution analysis is requested together with a
non-empty list of hypothetical indexes, `explain_query` returns the
validation-style mutual-exclusion error response and performs no
database-touching call at all — no hypopg check and no EXPLAIN of any kind. -/
theorem c7_analyze_hypo_rejected (env : ExplainEnv)
    (idxs : List HypotheticalIndex) (h : idxs ≠ []) :
    explain_query env true (some idxs) =
      (format_error_response "Cannot use analyze and hypothetical indexes together", []) := by
  cases idxs with
  | nil => exact absurd rfl h
  | cons a l => rfl

/-- Witness for C7: one concrete hypothetical index together with analyze
yields the mutual-exclusion error and an empty call trace. -/
theorem c7_analyze_hypo_rejected_witness :
    explain_query envAllOk true (some [idx0]) =
      (format_error_response "Cannot use analyze and hypothetical indexes together", []) :=
  c7_analyze_hypo_rejected envAllOk [idx0] (List.cons_ne_nil idx0 [])

/-- Claim C10: an empty `hypothetical_indexes` list behaves exactly like an
absent one: `explain_query` produces the same response and call trace in both
cases for every analyze flag, running the EXPLAIN ANALYZE path (with no
mutual-exclusion error branch) when analyze is true and the basic EXPLAIN
path when analyze is false. -/
theorem c10_empty_hypothetical (env : ExplainEnv) :
    (∀ analyze, explain_query env analyze (some []) = explain_query env analyze none) ∧
    (explain_query env true (some [])).2 = [ExplainCall.explainAnalyze] ∧
    (explain_query env false (some [])).2 = [ExplainCall.explainBasic] := by
  refine ⟨?_, rfl, rfl⟩
  intro analyze
  cases analyze <;> rfl

/-- Counterexample for C1: the `database_health` tool does not catch handler
failures — a raised exception escapes the tool function instead of being
converted to an error response. -/
theorem c1_counterexample :
    database_health_tool (.error "health check failed") = .error "health check failed" ∧
    database_health_tool (.error "health check failed") ≠
      .ok (format_error_response "health check failed") :=
  ⟨rfl, fun h => Except.noConfusion h⟩

/-- Claim C1 as amended: the tools that wrap their handler in a
`try`/`except` — `query`, `analyze_workload`, `analyze_queries` (past its
argument checks), and `explain_query` — convert every handler failure into a
textual response beginning with the error marker; `database_health` performs
no such catch, so its handler failures propagate past the tool function. -/
theorem c1_amended (e : String) :
    query_tool (.error e) = .ok (format_error_response e) ∧
    analyze_workload_tool (.error e) = .ok (format_error_response e) ∧
    (∀ limit (queries : List String), queries ≠ [] → queries.length ≤ limit →
      analyze_queries_tool limit queries (.error e) = .ok (format_error_response e)) ∧
    (∀ env : ExplainEnv, env.basicOutcome = .raised e →
      explain_query env false none = (format_error_response e, [ExplainCall.explainBasic])) ∧
    database_health_tool (.error e) = .error e := by
  refine ⟨rfl, rfl, ?_, ?_, rfl⟩
  · intro limit queries hne hle
    have h0 : ¬ queries.length = 0 := by
      simpa [List.length_eq_zero] using hne
    have h1 : ¬ queries.length > limit := by omega
    simp [analyze_queries_tool, h0, h1]
  · intro env henv
    simp [explain_query, pythonTruthy, finishExplainResult, henv]

/-- Witness for C1 as amended: a concrete raised failure is converted by the
wrapped tools and escapes `database_health`. -/
theorem c1_amended_witness :
    analyze_queries_tool 10 ["SELECT 1"] (.error "boom") =
      .ok (format_error_response "boom") ∧
    explain_query envRaisedBasic false none =
      (format_error_response "boom", [ExplainCall.explainBasic]) ∧
    database_health_tool (.error "boom") = .error "boom" :=
  ⟨(c1_amended "boom").2.2.1 10 ["SELECT 1"] (by decide) (by decide),
   (c1_amended "boom").2.2.2.1 envRaisedBasic rfl,
   (c1_amended "boom").2.2.2.2⟩

/-- Counterexample for C2: with one operation still in flight, the shutdown
coordinator closes the pool first — the close event strictly precedes the
event that waits for in-flight tasks, refuting wait-before-close. -/
theorem c2_counterexample :
    shutdown 1 = [ShutdownEvent.closePool, ShutdownEvent.gatherTasks 1] ∧
    (shutdown 1).indexOf ShutdownEvent.closePool <
      (shutdown 1).indexOf (ShutdownEvent.gatherTasks 1) := by
  decide

/-- Claim C2 as amended: on a termination signal or explicit shutdown
request the coordinator calls the pool's close() first and exactly once, and
only afterwards waits for the in-flight tasks (gathering them, without a
bound); the trace is finite, so the coordinator completes regardless of the
pending work. -/
theorem c2_amended (n : Nat) :
    (shutdown n).head? = some ShutdownEvent.closePool ∧
    ShutdownEvent.closePool ∉ (shutdown n).tail ∧
    (0 < n → shutdown n = [ShutdownEvent.closePool, ShutdownEvent.gatherTasks n]) ∧
    (n = 0 → shutdown n = [ShutdownEvent.closePool]) := by
  by_cases h : n = 0
  · subst h
    exact ⟨rfl, by simp [shutdown], fun hc => absurd hc (by omega), fun _ => rfl⟩
  · refine ⟨?_, ?_, ?_, fun hc => absurd hc h⟩
    · simp [shutdown, h]
    · simp [shutdown, h]
    · intro _
      simp [shutdown, h]

/-- Witness for C2 as amended: with two pending tasks the trace is pool
close followed by the gather of those tasks. -/
theorem c2_amended_witness :
    (shutdown 2).head? = some ShutdownEvent.closePool ∧
    shutdown 2 = [ShutdownEvent.closePool, ShutdownEvent.gatherTasks 2] :=
  ⟨(c2_amended 2).1, (c2_amended 2).2.2.1 (by decide)⟩

/-- Counterexample for C3: two requesters that both miss on the recognized
key before either has stored a result each issue their own database query —
the interleaved run issues two queries, not exactly one. -/
theorem c3_counterexample :
    (runSched dbOk "version" [false, true, false, true]
        { cache := [], queriesIssued := 0 } ReqPhase.start ReqPhase.start).1.queriesIssued = 2 ∧
    (runSched dbOk "version" [false, true, false, true]
        { cache := [], queriesIssued := 0 } ReqPhase.start ReqPhase.start).1.queriesIssued ≠ 1 := by
  refine ⟨rfl, ?_⟩
  intro h
  exact (by decide : (2 : Nat) ≠ 1) (by exact h)

/-- Claim C3 as amended: there is no single-flight collapse — under the
interleaving in which both requesters pass the cache check before either
store, each of the two concurrent misses on a recognized key issues its own
underlying query (two in total), and each requester completes observing the
fetched value. -/
theorem c3_amended (db : String → Except String (Option (List Row)))
    (key queryText : String)
    (hq : PG_METADATA_QUERIES.lookup key = some queryText)
    (rows : Option (List Row)) (hdb : db queryText = .ok rows) :
    (runSched db key [false, true, false, true]
        { cache := [], queriesIssued := 0 } ReqPhase.start ReqPhase.start).1.queriesIssued = 2 ∧
    (runSched db key [false, true, false, true]
        { cache := [], queriesIssued := 0 } ReqPhase.start ReqPhase.start).2.1 =
      ReqPhase.doneValue (rowsToValue rows) ∧
    (runSched db key [false, true, false, true]
        { cache := [], queriesIssued := 0 } ReqPhase.start ReqPhase.start).2.2 =
      ReqPhase.doneValue (rowsToValue rows) := by
  simp [runSched, stepReq, hq, hdb]

/-- Witness for C3 as amended: the concrete interleaved run for the version
key against a healthy database issues two queries and completes both
requesters with the fetched value. -/
theorem c3_amended_witness :
    (runSched dbOk "version" [false, true, false, true]
        { cache := [], queriesIssued := 0 } ReqPhase.start ReqPhase.start).1.queriesIssued = 2 ∧
    (runSched dbOk "version" [false, true, false, true]
        { cache := [], queriesIssued := 0 } ReqPhase.start ReqPhase.start).2.1 =
      ReqPhase.doneValue (rowsToValue (some [{ cells := ["PostgreSQL 16.4"] }])) ∧
    (runSched dbOk "version" [false, true, false, true]
        { cache := [], queriesIssued := 0 } ReqPhase.start ReqPhase.start).2.2 =
      ReqPhase.doneValue (rowsToValue (some [{ cells := ["PostgreSQL 16.4"] }])) :=
  c3_amended dbOk "version" "SELECT version() as version" rfl
    (some [{ cells := ["PostgreSQL 16.4"] }]) rfl

/-- Claim C9: a pool-connection failure at startup does not abort the
process — the warning printed carries the error passed through the password
redactor, the server proceeds to serve, and database-requiring tool calls
fail with per-operation error responses rather than crashing. -/
theorem c9_startup_resilient (obf : String → String) (e : String) :
    (mainStartup obf (.error e)).serving = true ∧
    (mainStartup obf (.error e)).poolConnected = false ∧
    (mainStartup obf (.error e)).startupWarning =
      some ("Warning: Could not connect to database: " ++ obf e) ∧
    (∀ msg, query_tool (.error msg) = .ok (format_error_response msg)) ∧
    (∀ msg, analyze_workload_tool (.error msg) = .ok (format_error_response msg)) :=
  ⟨rfl, rfl, rfl, fun _ => rfl, fun _ => rfl⟩

end PostgresMcp
